import Mathlib

/-!
Verification of the call-completion / transcript-retrieval / delivery pipeline
of the retell-form backend.

The definitions below are a shallow embedding of the backend source:
* the transcript retrieval loop `getTranscriptAndSendEmail` /
  `attemptToGetTranscript` (backend/express.js, lines 128-186);
* the webhook dispatcher `app.post('/')` and the in-memory `callMap`
  registry (backend/express.js, lines 57-125);
* the call-initiation handler `app.post('/api/initiate-call')`
  (backend/express.js, lines 20-55);
* the `EmailService.sendTranscriptEmail` primary/backup/degraded delivery
  pipeline (the email-service module).

External collaborators (the Retell provider and the mail transports) are
modelled as oracles passed in as parameters; side effects are recorded in
explicit trace structures.
-/

namespace RetellForm

/-- A user record stored in the call registry (`callMap[callId] = {email, name, phone}`). -/
structure UserInfo where
  email : String
  name : String
  phone : String
deriving DecidableEq

/-- The in-memory `callMap`: an association list from call id to user info.
A JavaScript object has at most one value per key; `regSet` preserves that. -/
abbrev Registry := List (String × UserInfo)

/-- `callMap[k]`: first (and only) binding for `k`, if any. -/
def regGet (r : Registry) (k : String) : Option UserInfo :=
  match r with
  | [] => none
  | (k', v) :: rest => if k' = k then some v else regGet rest k

/-- `delete callMap[k]`: remove the binding for `k`. -/
def regRemove (r : Registry) (k : String) : Registry :=
  r.filter (fun p => p.1 != k)

/-- `callMap[k] = v`: set the binding for `k`. -/
def regSet (r : Registry) (k : String) (v : UserInfo) : Registry :=
  (k, v) :: regRemove r k

/-- Outcome of one `client.call.retrieve(callId)` provider fetch:
either the call throws, or it returns a response whose `transcript`
field is `none` (absent) or `some t`. -/
inductive FetchResult where
  | throws : FetchResult
  | returns (transcript : Option String) : FetchResult
deriving DecidableEq

/-- The guard `!callResponse.transcript || callResponse.transcript === ''`:
the transcript field is absent or the empty string (both falsy). -/
def transcriptMissing : Option String → Bool
  | none => true
  | some t => t == ""

/-- A fetch result that reaches the retry branch of the loop: the call
returned and its transcript field is absent or empty. -/
def isEmptyFetch : FetchResult → Bool
  | FetchResult.throws => false
  | FetchResult.returns tr => transcriptMissing tr

/-- `formatTranscript` (backend/express.js, lines 189-200), restricted to
string transcripts: a falsy (empty) string maps to the placeholder text,
any other string is returned as is. -/
def formatTranscript (t : String) : String :=
  if t = "" then "No transcript available." else t

/-- Observable behaviour of one run of the retrieval loop:
how many provider fetches were performed, the delay scheduled before each
retry (`setTimeout(attemptToGetTranscript, retryDelay)`), the formatted
transcripts handed to the delivery send (`transporter.sendMail`), and how
many times `sendErrorEmail` was invoked. -/
structure LoopTrace where
  fetches : Nat
  delays : List Nat
  deliveries : List String
  errorEmails : Nat
deriving DecidableEq

/-- `attemptToGetTranscript` (backend/express.js, lines 132-183), starting
from a given `retryCount`.  `fetch k` is the outcome of the provider fetch
performed when `retryCount = k`; `sendOk` tells whether the delivery send
succeeds (a failed send is caught and routed to `sendErrorEmail`). -/
def attemptToGetTranscript (fetch : Nat → FetchResult) (sendOk : Bool)
    (maxRetries retryDelay : Nat) (retryCount : Nat) : LoopTrace :=
  match fetch retryCount with
  | FetchResult.throws =>
      { fetches := 1, delays := [], deliveries := [], errorEmails := 1 }
  | FetchResult.returns tr =>
      if transcriptMissing tr then
        if h : retryCount + 1 < maxRetries then
          let rest := attemptToGetTranscript fetch sendOk maxRetries retryDelay (retryCount + 1)
          { fetches := rest.fetches + 1
            delays := retryDelay :: rest.delays
            deliveries := rest.deliveries
            errorEmails := rest.errorEmails }
        else
          { fetches := 1, delays := [], deliveries := [], errorEmails := 1 }
      else
        { fetches := 1, delays := []
          deliveries := [formatTranscript (tr.getD "")]
          errorEmails := if sendOk then 0 else 1 }
termination_by maxRetries - retryCount
decreasing_by omega

/-- `getTranscriptAndSendEmail` (backend/express.js, lines 128-186):
starts the attempt chain with `retryCount = 0`. -/
def getTranscriptAndSendEmail (fetch : Nat → FetchResult) (sendOk : Bool)
    (maxRetries retryDelay : Nat) : LoopTrace :=
  attemptToGetTranscript fetch sendOk maxRetries retryDelay 0

/-- `const maxRetries = 5` (backend/express.js, line 130). -/
def defaultMaxRetries : Nat := 5

/-- `const retryDelay = 15000` (backend/express.js, line 131). -/
def defaultRetryDelay : Nat := 15000

theorem attempt_eq_throws (fetch : Nat → FetchResult) (sendOk : Bool)
    (maxRetries retryDelay retryCount : Nat)
    (h : fetch retryCount = FetchResult.throws) :
    attemptToGetTranscript fetch sendOk maxRetries retryDelay retryCount =
      { fetches := 1, delays := [], deliveries := [], errorEmails := 1 } := by
  rw [attemptToGetTranscript.eq_def, h]

theorem attempt_eq_success (fetch : Nat → FetchResult) (sendOk : Bool)
    (maxRetries retryDelay retryCount : Nat) (t : String)
    (h : fetch retryCount = FetchResult.returns (some t)) (ht : t ≠ "") :
    attemptToGetTranscript fetch sendOk maxRetries retryDelay retryCount =
      { fetches := 1, delays := [], deliveries := [t]
        errorEmails := if sendOk then 0 else 1 } := by
  rw [attemptToGetTranscript.eq_def, h]
  simp [transcriptMissing, formatTranscript, ht]

theorem attempt_eq_exhaust (fetch : Nat → FetchResult) (sendOk : Bool)
    (maxRetries retryDelay retryCount : Nat) (tr : Option String)
    (h : fetch retryCount = FetchResult.returns tr)
    (hm : transcriptMissing tr = true) (hge : ¬ retryCount + 1 < maxRetries) :
    attemptToGetTranscript fetch sendOk maxRetries retryDelay retryCount =
      { fetches := 1, delays := [], deliveries := [], errorEmails := 1 } := by
  rw [attemptToGetTranscript.eq_def, h]
  simp [hm, hge]

theorem attempt_eq_retry (fetch : Nat → FetchResult) (sendOk : Bool)
    (maxRetries retryDelay retryCount : Nat) (tr : Option String)
    (h : fetch retryCount = FetchResult.returns tr)
    (hm : transcriptMissing tr = true) (hlt : retryCount + 1 < maxRetries) :
    attemptToGetTranscript fetch sendOk maxRetries retryDelay retryCount =
      { fetches := (attemptToGetTranscript fetch sendOk maxRetries retryDelay (retryCount + 1)).fetches + 1
        delays := retryDelay :: (attemptToGetTranscript fetch sendOk maxRetries retryDelay (retryCount + 1)).delays
        deliveries := (attemptToGetTranscript fetch sendOk maxRetries retryDelay (retryCount + 1)).deliveries
        errorEmails := (attemptToGetTranscript fetch sendOk maxRetries retryDelay (retryCount + 1)).errorEmails } := by
  rw [attemptToGetTranscript.eq_def, h]
  simp [hm, hlt]

/-- Running the loop over a block of empty attempts: if every fetch from
`retryCount` up to (but excluding) `j` comes back empty and `j` is still
within the retry budget, the trace is the trace from `j` preceded by the
skipped attempts and their scheduled delays. -/
theorem attempt_skips_empty (fetch : Nat → FetchResult) (sendOk : Bool)
    (maxRetries retryDelay : Nat) (j : Nat) (hj : j < maxRetries) :
    ∀ n retryCount, retryCount + n = j →
      (∀ i, retryCount ≤ i → i < j → isEmptyFetch (fetch i) = true) →
      attemptToGetTranscript fetch sendOk maxRetries retryDelay retryCount =
        { fetches := (attemptToGetTranscript fetch sendOk maxRetries retryDelay j).fetches + n
          delays := List.replicate n retryDelay ++
            (attemptToGetTranscript fetch sendOk maxRetries retryDelay j).delays
          deliveries := (attemptToGetTranscript fetch sendOk maxRetries retryDelay j).deliveries
          errorEmails := (attemptToGetTranscript fetch sendOk maxRetries retryDelay j).errorEmails } := by
  intro n
  induction n with
  | zero =>
      intro retryCount hrc _
      have hrcj : retryCount = j := by omega
      subst hrcj
      simp
  | succ m ih =>
      intro retryCount hrc hempty
      have hlt : retryCount < j := by omega
      have hemp : isEmptyFetch (fetch retryCount) = true :=
        hempty retryCount (Nat.le_refl _) hlt
      obtain ⟨tr, htr, hmiss⟩ : ∃ tr, fetch retryCount = FetchResult.returns tr ∧
          transcriptMissing tr = true := by
        cases hfr : fetch retryCount with
        | throws => rw [hfr] at hemp; simp [isEmptyFetch] at hemp
        | returns tr => exact ⟨tr, rfl, by rw [hfr] at hemp; simpa [isEmptyFetch] using hemp⟩
      have hbudget : retryCount + 1 < maxRetries := by omega
      rw [attempt_eq_retry fetch sendOk maxRetries retryDelay retryCount tr htr hmiss hbudget]
      have hrec := ih (retryCount + 1) (by omega)
        (fun i hi hij => hempty i (by omega) hij)
      rw [hrec]
      simp [List.replicate_succ]
      omega

theorem emptyFetch_elim (r : FetchResult) (h : isEmptyFetch r = true) :
    ∃ tr, r = FetchResult.returns tr ∧ transcriptMissing tr = true := by
  cases r with
  | throws => simp [isEmptyFetch] at h
  | returns tr => exact ⟨tr, rfl, by simpa [isEmptyFetch] using h⟩

/-- C1: if every provider fetch returns an absent or empty transcript, the
retrieval loop performs exactly `maxRetries` fetch attempts, each retry
scheduled `retryDelay` after the previous attempt, invokes `sendErrorEmail`
exactly once, delivers nothing, and performs no further fetch after
exhaustion. -/
theorem transcript_loop_exhausts_budget (fetch : Nat → FetchResult) (sendOk : Bool)
    (maxRetries retryDelay : Nat) (hpos : 1 ≤ maxRetries)
    (hempty : ∀ k, isEmptyFetch (fetch k) = true) :
    getTranscriptAndSendEmail fetch sendOk maxRetries retryDelay =
      { fetches := maxRetries
        delays := List.replicate (maxRetries - 1) retryDelay
        deliveries := []
        errorEmails := 1 } := by
  unfold getTranscriptAndSendEmail
  rw [attempt_skips_empty fetch sendOk maxRetries retryDelay (maxRetries - 1)
    (by omega) (maxRetries - 1) 0 (by omega) (fun i _ _ => hempty i)]
  obtain ⟨tr, htr, hmiss⟩ := emptyFetch_elim _ (hempty (maxRetries - 1))
  rw [attempt_eq_exhaust fetch sendOk maxRetries retryDelay (maxRetries - 1) tr htr hmiss
    (by omega)]
  simp
  omega

/-- Witness for C1 at the defaults (5 retries, 15000 ms) with a provider stub
that always returns an absent transcript. -/
theorem transcript_loop_exhausts_budget_witness :
    getTranscriptAndSendEmail (fun _ => FetchResult.returns none) true
        defaultMaxRetries defaultRetryDelay =
      { fetches := 5, delays := List.replicate 4 15000
        deliveries := [], errorEmails := 1 } :=
  transcript_loop_exhausts_budget (fun _ => FetchResult.returns none) true
    defaultMaxRetries defaultRetryDelay (by decide) (fun _ => rfl)

/-- C2: if the first `k - 1` fetches come back empty and the `k`-th fetch
(`1 ≤ k ≤ maxRetries`) returns a non-empty transcript, and the delivery send
succeeds, the loop performs exactly `k` fetch attempts, hands exactly that
transcript to delivery once, and never invokes `sendErrorEmail`. -/
theorem transcript_loop_delivers_on_kth (fetch : Nat → FetchResult)
    (maxRetries retryDelay k : Nat) (t : String)
    (hk1 : 1 ≤ k) (hk2 : k ≤ maxRetries)
    (hbefore : ∀ i, i < k - 1 → isEmptyFetch (fetch i) = true)
    (hkth : fetch (k - 1) = FetchResult.returns (some t)) (ht : t ≠ "") :
    getTranscriptAndSendEmail fetch true maxRetries retryDelay =
      { fetches := k
        delays := List.replicate (k - 1) retryDelay
        deliveries := [t]
        errorEmails := 0 } := by
  unfold getTranscriptAndSendEmail
  rw [attempt_skips_empty fetch true maxRetries retryDelay (k - 1)
    (by omega) (k - 1) 0 (by omega) (fun i _ hij => hbefore i hij)]
  rw [attempt_eq_success fetch true maxRetries retryDelay (k - 1) t hkth ht]
  simp
  omega

/-- Witness for C2: the transcript arrives on the 3rd of 5 allowed attempts. -/
theorem transcript_loop_delivers_on_kth_witness :
    getTranscriptAndSendEmail
        (fun i => if i = 2 then FetchResult.returns (some "hello") else FetchResult.returns none)
        true defaultMaxRetries defaultRetryDelay =
      { fetches := 3, delays := List.replicate 2 15000
        deliveries := ["hello"], errorEmails := 0 } :=
  transcript_loop_delivers_on_kth
    (fun i => if i = 2 then FetchResult.returns (some "hello") else FetchResult.returns none)
    defaultMaxRetries defaultRetryDelay 3 "hello" (by decide) (by decide)
    (by decide) (by decide) (by decide)

/-- C9: if the fetch of attempt `k` throws (after `k - 1` empty attempts,
`1 ≤ k ≤ maxRetries`), the loop invokes `sendErrorEmail` immediately and
exactly once, delivers nothing, and schedules no further fetch: exactly `k`
fetch attempts happen in total, whatever budget remains. -/
theorem transcript_loop_stops_on_throw (fetch : Nat → FetchResult) (sendOk : Bool)
    (maxRetries retryDelay k : Nat)
    (hk1 : 1 ≤ k) (hk2 : k ≤ maxRetries)
    (hbefore : ∀ i, i < k - 1 → isEmptyFetch (fetch i) = true)
    (hkth : fetch (k - 1) = FetchResult.throws) :
    getTranscriptAndSendEmail fetch sendOk maxRetries retryDelay =
      { fetches := k
        delays := List.replicate (k - 1) retryDelay
        deliveries := []
        errorEmails := 1 } := by
  unfold getTranscriptAndSendEmail
  rw [attempt_skips_empty fetch sendOk maxRetries retryDelay (k - 1)
    (by omega) (k - 1) 0 (by omega) (fun i _ hij => hbefore i hij)]
  rw [attempt_eq_throws fetch sendOk maxRetries retryDelay (k - 1) hkth]
  simp
  omega

/-- Witness for C9: the fetch throws on the 2nd of 5 allowed attempts; the
chain stops there with one error notification. -/
theorem transcript_loop_stops_on_throw_witness :
    getTranscriptAndSendEmail
        (fun i => if i = 1 then FetchResult.throws else FetchResult.returns none)
        true defaultMaxRetries defaultRetryDelay =
      { fetches := 2, delays := List.replicate 1 15000
        deliveries := [], errorEmails := 1 } :=
  transcript_loop_stops_on_throw
    (fun i => if i = 1 then FetchResult.throws else FetchResult.returns none)
    true defaultMaxRetries defaultRetryDelay 2 (by decide) (by decide)
    (by decide) (by decide)

/-- The `call` object of a webhook payload.  Fields are `Option` because the
provider may omit them; a `call_id` of `some ""` is falsy in the shape check. -/
structure CallPayload where
  call_id : Option String
  call_status : Option String
  end_timestamp : Option Nat
deriving DecidableEq

/-- A webhook request body `{event, call}`.  `event = some ""` is falsy. -/
structure WebhookBody where
  event : Option String
  call : Option CallPayload
deriving DecidableEq

/-- JavaScript truthiness of an optional number: present and non-zero. -/
def truthyNat : Option Nat → Bool
  | none => false
  | some n => n != 0

/-- The shape check `!event || !call || !call.call_id` (negated): a truthy
event string, a call object, and a truthy `call.call_id`. -/
def validPayload (body : WebhookBody) : Bool :=
  match body.event, body.call with
  | some ev, some c =>
      (match c.call_id with
       | some cid => !(ev == "") && !(cid == "")
       | none => false)
  | _, _ => false

/-- Observable outcome of one webhook request: HTTP status, the `success`
flag of the 200 response body, the registry afterwards, the invocations of
`getTranscriptAndSendEmail` (call id, email, name) with their traces, and
whether the `userInfo && userInfo.email` guard found a record lacking a
truthy email. -/
structure WebhookResult where
  status : Nat
  success : Bool
  registry : Registry
  loopCalls : List (String × String × String)
  loopTraces : List LoopTrace
  foundWithoutEmail : Bool
deriving DecidableEq

/-- The 400 response for `!event || !call || !call.call_id`. -/
def invalidResult (registry : Registry) : WebhookResult :=
  { status := 400, success := false, registry := registry
    loopCalls := [], loopTraces := [], foundWithoutEmail := false }

/-- The `switch (event)` body of the webhook handler
(backend/express.js, lines 67-111), for a shape-valid payload.
`getTranscriptAndSendEmail` starts its attempt chain without being awaited
and every rejection inside the chain (including in `sendErrorEmail`) is
caught, so nothing in the switch can throw: the handler always reaches the
200 `success: true` response. -/
def processWebhookEvent (fetch : Nat → FetchResult) (sendOk : Bool)
    (maxRetries retryDelay : Nat) (registry : Registry)
    (ev : String) (c : CallPayload) (cid : String) : WebhookResult :=
  if ev = "call_ended" then
    if c.call_status = some "ended" ∧ truthyNat c.end_timestamp = true then
      match regGet registry cid with
      | some u =>
          if u.email = "" then
            { status := 200, success := true, registry := registry
              loopCalls := [], loopTraces := [], foundWithoutEmail := true }
          else
            { status := 200, success := true, registry := regRemove registry cid
              loopCalls := [(cid, u.email, u.name)]
              loopTraces := [getTranscriptAndSendEmail fetch sendOk maxRetries retryDelay]
              foundWithoutEmail := false }
      | none =>
          { status := 200, success := true, registry := registry
            loopCalls := [], loopTraces := [], foundWithoutEmail := false }
    else
      if (regGet registry cid).isSome then
        { status := 200, success := true, registry := regRemove registry cid
          loopCalls := [], loopTraces := [], foundWithoutEmail := false }
      else
        { status := 200, success := true, registry := registry
          loopCalls := [], loopTraces := [], foundWithoutEmail := false }
  else
    { status := 200, success := true, registry := registry
      loopCalls := [], loopTraces := [], foundWithoutEmail := false }

/-- The webhook endpoint `app.post('/')` (backend/express.js, lines 57-125):
validate the payload shape, then dispatch on the event. -/
def webhookHandler (fetch : Nat → FetchResult) (sendOk : Bool)
    (maxRetries retryDelay : Nat) (registry : Registry)
    (body : WebhookBody) : WebhookResult :=
  match body.event, body.call with
  | some ev, some c =>
      (match c.call_id with
       | some cid =>
           if ev = "" ∨ cid = "" then invalidResult registry
           else processWebhookEvent fetch sendOk maxRetries retryDelay registry ev c cid
       | none => invalidResult registry)
  | _, _ => invalidResult registry

theorem regGet_mem (r : Registry) (k : String) (u : UserInfo)
    (h : regGet r k = some u) : (k, u) ∈ r := by
  induction r with
  | nil => simp [regGet] at h
  | cons p rest ih =>
      obtain ⟨k', v⟩ := p
      by_cases hk : k' = k
      · subst hk
        simp [regGet] at h
        simp [h]
      · rw [regGet, if_neg hk] at h
        exact List.mem_cons_of_mem _ (ih h)

theorem mem_regRemove (r : Registry) (k : String) (p : String × UserInfo)
    (h : p ∈ regRemove r k) : p ∈ r :=
  List.mem_of_mem_filter h

theorem regGet_regRemove_self (r : Registry) (k : String) :
    regGet (regRemove r k) k = none := by
  induction r with
  | nil => rfl
  | cons p rest ih =>
      obtain ⟨k', v⟩ := p
      by_cases hk : k' = k
      · subst hk
        simpa [regRemove, List.filter] using ih
      · have hb : (k' != k) = true := by simpa using hk
        simp only [regRemove, List.filter, hb]
        rw [regGet, if_neg hk]
        simpa [regRemove] using ih

theorem regGet_regRemove_ne (r : Registry) (k k' : String) (hne : k' ≠ k) :
    regGet (regRemove r k) k' = regGet r k' := by
  induction r with
  | nil => rfl
  | cons p rest ih =>
      obtain ⟨k₀, v⟩ := p
      by_cases hk : k₀ = k
      · subst hk
        have hbb : (k₀ != k₀) = false := by simp
        simp only [regRemove, List.filter, hbb]
        rw [regGet, if_neg (fun h => hne h.symm)]
        simpa [regRemove] using ih
      · have hb : (k₀ != k) = true := by simpa using hk
        simp only [regRemove, List.filter, hb]
        by_cases hk' : k₀ = k'
        · subst hk'
          rw [regGet, if_pos rfl, regGet, if_pos rfl]
        · rw [regGet, if_neg hk', regGet, if_neg hk']
          simpa [regRemove] using ih

theorem regRemove_of_not_found (r : Registry) (k : String)
    (h : regGet r k = none) : regRemove r k = r := by
  induction r with
  | nil => rfl
  | cons p rest ih =>
      obtain ⟨k', v⟩ := p
      by_cases hk : k' = k
      · subst hk
        rw [regGet, if_pos rfl] at h
        exact absurd h (by simp)
      · have hb : (k' != k) = true := by simpa using hk
        rw [regGet, if_neg hk] at h
        simp only [regRemove, List.filter, hb]
        rw [show List.filter (fun p => p.1 != k) rest = regRemove rest k from rfl, ih h]

/-- Every record stored in the registry has a truthy (non-empty) email. -/
def wellFormedRegistry (r : Registry) : Prop := ∀ p ∈ r, p.2.email ≠ ""

theorem processWebhookEvent_ack (fetch : Nat → FetchResult) (sendOk : Bool)
    (maxRetries retryDelay : Nat) (registry : Registry)
    (ev : String) (c : CallPayload) (cid : String) :
    (processWebhookEvent fetch sendOk maxRetries retryDelay registry ev c cid).status = 200 ∧
    (processWebhookEvent fetch sendOk maxRetries retryDelay registry ev c cid).success = true := by
  unfold processWebhookEvent
  repeat' split
  all_goals exact ⟨rfl, rfl⟩

theorem webhookHandler_eq_process (fetch : Nat → FetchResult) (sendOk : Bool)
    (maxRetries retryDelay : Nat) (registry : Registry)
    (ev : String) (c : CallPayload) (cid : String)
    (hcid : c.call_id = some cid) (hev : ev ≠ "") (hcid' : cid ≠ "") :
    webhookHandler fetch sendOk maxRetries retryDelay registry ⟨some ev, some c⟩ =
      processWebhookEvent fetch sendOk maxRetries retryDelay registry ev c cid := by
  obtain ⟨ocid, ost, ots⟩ := c
  cases ocid with
  | none => simp at hcid
  | some cid₀ =>
      have hc : cid₀ = cid := by simpa using hcid
      subst hc
      show (if ev = "" ∨ cid₀ = "" then invalidResult registry else _) = _
      rw [if_neg (by push_neg; exact ⟨hev, hcid'⟩)]

theorem webhookHandler_eq_invalid (fetch : Nat → FetchResult) (sendOk : Bool)
    (maxRetries retryDelay : Nat) (registry : Registry) (body : WebhookBody)
    (h : validPayload body = false) :
    webhookHandler fetch sendOk maxRetries retryDelay registry body =
      invalidResult registry := by
  rcases body with ⟨oev, oc⟩
  cases oev with
  | none =>
      cases oc with
      | none => rfl
      | some c => rfl
  | some ev =>
      cases oc with
      | none => rfl
      | some c =>
          obtain ⟨ocid, ost, ots⟩ := c
          cases ocid with
          | none => rfl
          | some cid =>
              simp [validPayload] at h
              show (if ev = "" ∨ cid = "" then invalidResult registry else _) = _
              by_cases hev : ev = ""
              · rw [if_pos (Or.inl hev)]
              · rw [if_pos (Or.inr (h hev))]

/-- C3: for every webhook body with a truthy `event`, a `call` object and a
truthy `call.call_id`, the endpoint answers 200 with `success: true`,
whatever the provider fetches and the delivery send do downstream; and only
bodies failing that shape check get a non-success response. -/
theorem webhook_ack_iff_valid_shape (fetch : Nat → FetchResult) (sendOk : Bool)
    (maxRetries retryDelay : Nat) (registry : Registry) (body : WebhookBody) :
    ((webhookHandler fetch sendOk maxRetries retryDelay registry body).status = 200 ∧
      (webhookHandler fetch sendOk maxRetries retryDelay registry body).success = true)
    ↔ validPayload body = true := by
  by_cases h : validPayload body = true
  · rw [h]
    rcases body with ⟨oev, oc⟩
    cases oev with
    | none => cases oc <;> simp [validPayload] at h
    | some ev =>
        cases oc with
        | none => simp [validPayload] at h
        | some c =>
            obtain ⟨ocid, ost, ots⟩ := c
            cases ocid with
            | none => simp [validPayload] at h
            | some cid =>
                simp [validPayload] at h
                rw [webhookHandler_eq_process fetch sendOk maxRetries retryDelay registry
                  ev ⟨some cid, ost, ots⟩ cid rfl h.1 h.2]
                simpa using processWebhookEvent_ack fetch sendOk maxRetries retryDelay
                  registry ev ⟨some cid, ost, ots⟩ cid
  · have hf : validPayload body = false := by
      cases hv : validPayload body
      · rfl
      · exact absurd hv h
    rw [webhookHandler_eq_invalid fetch sendOk maxRetries retryDelay registry body hf, hf]
    simp [invalidResult]

/-- C4: a `call_ended` event with `call_status = "ended"` and a truthy
`end_timestamp` whose call id is registered (in a registry whose records all
carry a truthy email, as the initiation handler guarantees) invokes the
retrieval loop exactly once with that record's email and name, and removes
the registry entry. -/
theorem webhook_call_ended_processes_record (fetch : Nat → FetchResult) (sendOk : Bool)
    (maxRetries retryDelay : Nat) (registry : Registry)
    (c : CallPayload) (cid : String) (u : UserInfo)
    (hwf : wellFormedRegistry registry)
    (hcid : c.call_id = some cid) (hcid' : cid ≠ "")
    (hstatus : c.call_status = some "ended")
    (hts : truthyNat c.end_timestamp = true)
    (hreg : regGet registry cid = some u) :
    (webhookHandler fetch sendOk maxRetries retryDelay registry
        ⟨some "call_ended", some c⟩).loopCalls = [(cid, u.email, u.name)] ∧
    regGet (webhookHandler fetch sendOk maxRetries retryDelay registry
        ⟨some "call_ended", some c⟩).registry cid = none := by
  have hu : u.email ≠ "" := hwf (cid, u) (regGet_mem registry cid u hreg)
  rw [webhookHandler_eq_process fetch sendOk maxRetries retryDelay registry
    "call_ended" c cid hcid (by decide) hcid']
  unfold processWebhookEvent
  rw [if_pos rfl, if_pos ⟨hstatus, hts⟩]
  simp only [hreg]
  rw [if_neg hu]
  exact ⟨rfl, regGet_regRemove_self registry cid⟩

/-- Witness for C4 on a one-entry registry. -/
theorem webhook_call_ended_processes_record_witness :
    (webhookHandler (fun _ => FetchResult.returns (some "hi")) true 5 15000
        [("call-1", ⟨"ann@x.com", "Ann", "9998887776"⟩)]
        ⟨some "call_ended", some ⟨some "call-1", some "ended", some 5⟩⟩).loopCalls
      = [("call-1", "ann@x.com", "Ann")] ∧
    regGet (webhookHandler (fun _ => FetchResult.returns (some "hi")) true 5 15000
        [("call-1", ⟨"ann@x.com", "Ann", "9998887776"⟩)]
        ⟨some "call_ended", some ⟨some "call-1", some "ended", some 5⟩⟩).registry
      "call-1" = none :=
  webhook_call_ended_processes_record (fun _ => FetchResult.returns (some "hi")) true
    5 15000 [("call-1", ⟨"ann@x.com", "Ann", "9998887776"⟩)]
    ⟨some "call-1", some "ended", some 5⟩ "call-1" ⟨"ann@x.com", "Ann", "9998887776"⟩
    (by intro p hp; simp at hp; subst hp; decide)
    rfl (by decide) rfl (by decide) (by decide)

/-- C5: a `call_ended` event whose `call_status` is not `"ended"` or whose
`end_timestamp` is falsy never invokes the retrieval loop; it deletes any
existing registry entry for that call id, leaves every other entry intact,
and leaves the registry untouched when no entry exists. -/
theorem webhook_call_ended_failed_cleans (fetch : Nat → FetchResult) (sendOk : Bool)
    (maxRetries retryDelay : Nat) (registry : Registry)
    (c : CallPayload) (cid : String)
    (hcid : c.call_id = some cid) (hcid' : cid ≠ "")
    (hcond : ¬ (c.call_status = some "ended" ∧ truthyNat c.end_timestamp = true)) :
    (webhookHandler fetch sendOk maxRetries retryDelay registry
        ⟨some "call_ended", some c⟩).loopCalls = [] ∧
    regGet (webhookHandler fetch sendOk maxRetries retryDelay registry
        ⟨some "call_ended", some c⟩).registry cid = none ∧
    (∀ k, k ≠ cid → regGet (webhookHandler fetch sendOk maxRetries retryDelay registry
        ⟨some "call_ended", some c⟩).registry k = regGet registry k) ∧
    (regGet registry cid = none →
      (webhookHandler fetch sendOk maxRetries retryDelay registry
        ⟨some "call_ended", some c⟩).registry = registry) := by
  rw [webhookHandler_eq_process fetch sendOk maxRetries retryDelay registry
    "call_ended" c cid hcid (by decide) hcid']
  unfold processWebhookEvent
  rw [if_pos rfl, if_neg hcond]
  by_cases hfound : (regGet registry cid).isSome = true
  · rw [if_pos hfound]
    refine ⟨rfl, regGet_regRemove_self registry cid,
      fun k hk => regGet_regRemove_ne registry cid k hk, ?_⟩
    intro hnone
    rw [hnone] at hfound
    simp at hfound
  · rw [if_neg hfound]
    have hnone : regGet registry cid = none := by
      cases hg : regGet registry cid
      · rfl
      · rw [hg] at hfound
        simp at hfound
    exact ⟨rfl, hnone, fun k _ => rfl, fun _ => rfl⟩

/-- Witness for C5: an errored call is swept from the registry. -/
theorem webhook_call_ended_failed_cleans_witness :
    (webhookHandler (fun _ => FetchResult.returns none) true 5 15000
        [("call-1", ⟨"ann@x.com", "Ann", "9998887776"⟩)]
        ⟨some "call_ended", some ⟨some "call-1", some "error", some 5⟩⟩).loopCalls = [] ∧
    regGet (webhookHandler (fun _ => FetchResult.returns none) true 5 15000
        [("call-1", ⟨"ann@x.com", "Ann", "9998887776"⟩)]
        ⟨some "call_ended", some ⟨some "call-1", some "error", some 5⟩⟩).registry
      "call-1" = none ∧
    (∀ k, k ≠ "call-1" →
      regGet (webhookHandler (fun _ => FetchResult.returns none) true 5 15000
        [("call-1", ⟨"ann@x.com", "Ann", "9998887776"⟩)]
        ⟨some "call_ended", some ⟨some "call-1", some "error", some 5⟩⟩).registry k =
      regGet [("call-1", ⟨"ann@x.com", "Ann", "9998887776"⟩)] k) ∧
    (regGet [("call-1", ⟨"ann@x.com", "Ann", "9998887776"⟩)] "call-1" = none →
      (webhookHandler (fun _ => FetchResult.returns none) true 5 15000
        [("call-1", ⟨"ann@x.com", "Ann", "9998887776"⟩)]
        ⟨some "call_ended", some ⟨some "call-1", some "error", some 5⟩⟩).registry =
      [("call-1", ⟨"ann@x.com", "Ann", "9998887776"⟩)]) :=
  webhook_call_ended_failed_cleans (fun _ => FetchResult.returns none) true 5 15000
    [("call-1", ⟨"ann@x.com", "Ann", "9998887776"⟩)]
    ⟨some "call-1", some "error", some 5⟩ "call-1" rfl (by decide) (by decide)

/-- C8: a webhook body failing the shape check (for example `{}`) gets a 400
response without `success`, and the registry is left exactly as it was: no
entry is added, removed or changed, and no retrieval loop starts. -/
theorem webhook_invalid_payload_is_noop (fetch : Nat → FetchResult) (sendOk : Bool)
    (maxRetries retryDelay : Nat) (registry : Registry) (body : WebhookBody)
    (hbad : validPayload body = false) :
    (webhookHandler fetch sendOk maxRetries retryDelay registry body).status = 400 ∧
    (webhookHandler fetch sendOk maxRetries retryDelay registry body).success = false ∧
    (webhookHandler fetch sendOk maxRetries retryDelay registry body).registry = registry ∧
    (webhookHandler fetch sendOk maxRetries retryDelay registry body).loopCalls = [] := by
  rw [webhookHandler_eq_invalid fetch sendOk maxRetries retryDelay registry body hbad]
  exact ⟨rfl, rfl, rfl, rfl⟩

/-- Witness for C8 with the empty body `{}` against a populated registry. -/
theorem webhook_invalid_payload_is_noop_witness :
    (webhookHandler (fun _ => FetchResult.returns none) true 5 15000
        [("call-1", ⟨"ann@x.com", "Ann", "9998887776"⟩)] ⟨none, none⟩).status = 400 ∧
    (webhookHandler (fun _ => FetchResult.returns none) true 5 15000
        [("call-1", ⟨"ann@x.com", "Ann", "9998887776"⟩)] ⟨none, none⟩).success = false ∧
    (webhookHandler (fun _ => FetchResult.returns none) true 5 15000
        [("call-1", ⟨"ann@x.com", "Ann", "9998887776"⟩)] ⟨none, none⟩).registry =
      [("call-1", ⟨"ann@x.com", "Ann", "9998887776"⟩)] ∧
    (webhookHandler (fun _ => FetchResult.returns none) true 5 15000
        [("call-1", ⟨"ann@x.com", "Ann", "9998887776"⟩)] ⟨none, none⟩).loopCalls = [] :=
  webhook_invalid_payload_is_noop (fun _ => FetchResult.returns none) true 5 15000
    [("call-1", ⟨"ann@x.com", "Ann", "9998887776"⟩)] ⟨none, none⟩ rfl

/-- The two interchangeable mail transports of the email-service module:
MailerSend (primary when configured) and Gmail (backup). -/
inductive MailTransport where
  | mailersend
  | gmail
deriving DecidableEq

/-- Which transports the `EmailService` constructor initialized:
`this.mailerSend` and `this.gmailTransporter`. -/
structure EmailServiceConfig where
  hasMailerSend : Bool
  hasGmail : Bool
deriving DecidableEq

/-- Observable behaviour of one `sendTranscriptEmail` call: transcript-send
attempts per transport, the transports that actually delivered the
transcript message, the number of `sendErrorNotification` invocations,
whether the degraded notification itself got delivered, and whether the
call re-raises an error to its caller. -/
structure EmailTrace where
  msAttempts : Nat
  gmAttempts : Nat
  delivered : List MailTransport
  degradedCalls : Nat
  degradedDelivered : Bool
  raised : Bool
deriving DecidableEq

/-- `EmailService.sendErrorNotification`: sends the degraded notification
via MailerSend if configured, else via Gmail if configured; its own failure
is caught and only logged.  Returns whether the notification was delivered.
`msOk` / `gmOk` give the outcome of a send on each transport. -/
def sendErrorNotification (cfg : EmailServiceConfig) (msOk gmOk : Bool) : Bool :=
  if cfg.hasMailerSend then msOk
  else if cfg.hasGmail then gmOk
  else false

/-- The `catch` clause of `EmailService.sendTranscriptEmail`: if both
transports are configured, retry once via the Gmail backup; on backup
success return, otherwise (and when no backup exists) invoke
`sendErrorNotification` once and re-raise the original error (`throw error`).
`ms` / `gm` are the attempts already made in the `try` block. -/
def sendTranscriptCatch (cfg : EmailServiceConfig) (msOk gmOk : Bool)
    (ms gm : Nat) : EmailTrace :=
  if cfg.hasMailerSend && cfg.hasGmail then
    if gmOk then
      { msAttempts := ms, gmAttempts := gm + 1, delivered := [MailTransport.gmail]
        degradedCalls := 0, degradedDelivered := false, raised := false }
    else
      { msAttempts := ms, gmAttempts := gm + 1, delivered := []
        degradedCalls := 1, degradedDelivered := sendErrorNotification cfg msOk gmOk
        raised := true }
  else
    { msAttempts := ms, gmAttempts := gm, delivered := []
      degradedCalls := 1, degradedDelivered := sendErrorNotification cfg msOk gmOk
      raised := true }

/-- `EmailService.sendTranscriptEmail`: try MailerSend first when
configured, else Gmail, else throw `No email service configured`; any
failure lands in the catch clause modelled by `sendTranscriptCatch`. -/
def sendTranscriptEmail (cfg : EmailServiceConfig) (msOk gmOk : Bool) : EmailTrace :=
  if cfg.hasMailerSend then
    if msOk then
      { msAttempts := 1, gmAttempts := 0, delivered := [MailTransport.mailersend]
        degradedCalls := 0, degradedDelivered := false, raised := false }
    else sendTranscriptCatch cfg msOk gmOk 1 0
  else if cfg.hasGmail then
    if gmOk then
      { msAttempts := 0, gmAttempts := 1, delivered := [MailTransport.gmail]
        degradedCalls := 0, degradedDelivered := false, raised := false }
    else sendTranscriptCatch cfg msOk gmOk 0 1
  else sendTranscriptCatch cfg msOk gmOk 0 0

/-- C6 counterexample: with both transports configured and both failing,
`sendTranscriptEmail` does invoke the degraded-notification path exactly
once, but then re-raises the original error to its caller (`throw error` at
the end of the catch clause), so the claim's "does not raise" is false. -/
theorem delivery_both_fail_raises_cex :
    (sendTranscriptEmail ⟨true, true⟩ false false).degradedCalls = 1 ∧
    (sendTranscriptEmail ⟨true, true⟩ false false).raised = true := by
  decide

/-- C6 (amended): if both transports are configured and both fail, the
delivery pipeline invokes the degraded-notification path exactly once —
swallowing that notification's own failure — and then re-raises the
original send error to its caller. -/
theorem delivery_both_fail_degraded_once (cfg : EmailServiceConfig) (msOk gmOk : Bool)
    (hms : cfg.hasMailerSend = true) (hgm : cfg.hasGmail = true)
    (hmsf : msOk = false) (hgmf : gmOk = false) :
    (sendTranscriptEmail cfg msOk gmOk).degradedCalls = 1 ∧
    (sendTranscriptEmail cfg msOk gmOk).delivered = [] ∧
    (sendTranscriptEmail cfg msOk gmOk).raised = true := by
  obtain ⟨ms, gm⟩ := cfg
  simp only at hms hgm
  subst hms
  subst hgm
  subst hmsf
  subst hgmf
  decide

/-- Witness for the amended C6 at the concrete failing configuration. -/
theorem delivery_both_fail_degraded_once_witness :
    (sendTranscriptEmail ⟨true, true⟩ false false).degradedCalls = 1 ∧
    (sendTranscriptEmail ⟨true, true⟩ false false).delivered = [] ∧
    (sendTranscriptEmail ⟨true, true⟩ false false).raised = true :=
  delivery_both_fail_degraded_once ⟨true, true⟩ false false rfl rfl rfl rfl

/-- C7: if the primary transport (MailerSend) fails and the Gmail backup is
configured and succeeds, the pipeline retries exactly once via the backup,
delivers exactly one message (via Gmail), never invokes the
degraded-notification path, and raises nothing. -/
theorem delivery_backup_rescues (cfg : EmailServiceConfig) (msOk gmOk : Bool)
    (hms : cfg.hasMailerSend = true) (hgm : cfg.hasGmail = true)
    (hmsf : msOk = false) (hgms : gmOk = true) :
    sendTranscriptEmail cfg msOk gmOk =
      { msAttempts := 1, gmAttempts := 1, delivered := [MailTransport.gmail]
        degradedCalls := 0, degradedDelivered := false, raised := false } := by
  obtain ⟨ms, gm⟩ := cfg
  simp only at hms hgm
  subst hms
  subst hgm
  subst hmsf
  subst hgms
  decide

/-- Witness for C7 at the concrete primary-fails / backup-succeeds stubs. -/
theorem delivery_backup_rescues_witness :
    sendTranscriptEmail ⟨true, true⟩ false true =
      { msAttempts := 1, gmAttempts := 1, delivered := [MailTransport.gmail]
        degradedCalls := 0, degradedDelivered := false, raised := false } :=
  delivery_backup_rescues ⟨true, true⟩ false true rfl rfl rfl rfl

/-- The form body of `POST /api/initiate-call`.  An absent field and an
empty string are both falsy for the `!phone || !email` guard, so both are
modelled as `""`. -/
structure InitBody where
  phone : String
  name : String
  email : String
deriving DecidableEq

/-- Outcome of the initiate-call handler: HTTP status and the registry. -/
structure InitResult where
  status : Nat
  registry : Registry
deriving DecidableEq

/-- The initiate-call handler (backend/express.js, lines 20-55): reject with
400 when phone or email is falsy; otherwise ask the provider for a call and,
on success, insert `{email, name, phone}` under the returned call id. -/
def initiateCall (registry : Registry) (body : InitBody) (providerOk : Bool)
    (newCallId : String) : InitResult :=
  if body.phone = "" ∨ body.email = "" then
    { status := 400, registry := registry }
  else if providerOk then
    { status := 200
      registry := regSet registry newCallId ⟨body.email, body.name, body.phone⟩ }
  else
    { status := 500, registry := registry }

/-- Registry states reachable through the two mutating HTTP surfaces:
the empty start state, the initiate-call handler, and the webhook handler. -/
inductive Reachable : Registry → Prop where
  | protected empty : Reachable []
  | protected init (r : Registry) (body : InitBody) (providerOk : Bool) (newCallId : String) :
      Reachable r → Reachable (initiateCall r body providerOk newCallId).registry
  | protected webhook (r : Registry) (fetch : Nat → FetchResult) (sendOk : Bool)
      (maxRetries retryDelay : Nat) (body : WebhookBody) :
      Reachable r →
      Reachable (webhookHandler fetch sendOk maxRetries retryDelay r body).registry

theorem initiateCall_wf (registry : Registry) (body : InitBody) (providerOk : Bool)
    (newCallId : String) (h : wellFormedRegistry registry) :
    wellFormedRegistry (initiateCall registry body providerOk newCallId).registry := by
  unfold initiateCall
  by_cases hg : body.phone = "" ∨ body.email = ""
  · rw [if_pos hg]
    exact h
  · push_neg at hg
    rw [if_neg (by push_neg; exact hg)]
    cases providerOk with
    | false => simpa using h
    | true =>
        simp only [if_true]
        intro p hp
        rcases List.mem_cons.mp hp with hp | hp
        · subst hp
          exact hg.2
        · exact h p (mem_regRemove registry newCallId p hp)

theorem processWebhookEvent_registry_cases (fetch : Nat → FetchResult) (sendOk : Bool)
    (maxRetries retryDelay : Nat) (registry : Registry)
    (ev : String) (c : CallPayload) (cid : String) :
    (processWebhookEvent fetch sendOk maxRetries retryDelay registry ev c cid).registry
      = registry ∨
    (processWebhookEvent fetch sendOk maxRetries retryDelay registry ev c cid).registry
      = regRemove registry cid := by
  unfold processWebhookEvent
  repeat' split
  all_goals first | exact Or.inl rfl | exact Or.inr rfl

theorem webhookHandler_registry_cases (fetch : Nat → FetchResult) (sendOk : Bool)
    (maxRetries retryDelay : Nat) (registry : Registry) (body : WebhookBody) :
    (webhookHandler fetch sendOk maxRetries retryDelay registry body).registry = registry ∨
    ∃ cid, (webhookHandler fetch sendOk maxRetries retryDelay registry body).registry =
      regRemove registry cid := by
  rcases body with ⟨oev, oc⟩
  cases oev with
  | none => cases oc <;> exact Or.inl rfl
  | some ev =>
      cases oc with
      | none => exact Or.inl rfl
      | some c =>
          obtain ⟨ocid, ost, ots⟩ := c
          cases ocid with
          | none => exact Or.inl rfl
          | some cid =>
              by_cases hz : ev = "" ∨ cid = ""
              · left
                rw [webhookHandler_eq_invalid fetch sendOk maxRetries retryDelay registry
                  ⟨some ev, some ⟨some cid, ost, ots⟩⟩
                  (by rcases hz with h | h <;> simp [validPayload, h])]
                rfl
              · push_neg at hz
                rw [webhookHandler_eq_process fetch sendOk maxRetries retryDelay registry
                  ev ⟨some cid, ost, ots⟩ cid rfl hz.1 hz.2]
                exact (processWebhookEvent_registry_cases fetch sendOk maxRetries retryDelay
                  registry ev ⟨some cid, ost, ots⟩ cid).imp id (fun h => ⟨cid, h⟩)

theorem webhookHandler_wf (fetch : Nat → FetchResult) (sendOk : Bool)
    (maxRetries retryDelay : Nat) (registry : Registry) (body : WebhookBody)
    (h : wellFormedRegistry registry) :
    wellFormedRegistry
      (webhookHandler fetch sendOk maxRetries retryDelay registry body).registry := by
  rcases webhookHandler_registry_cases fetch sendOk maxRetries retryDelay registry body with
    heq | ⟨cid, heq⟩
  · rw [heq]
    exact h
  · rw [heq]
    intro p hp
    exact h p (mem_regRemove registry cid p hp)

theorem reachable_wellFormed (r : Registry) (h : Reachable r) : wellFormedRegistry r := by
  induction h with
  | empty =>
      intro p hp
      simp at hp
  | init r body providerOk newCallId _ ih =>
      exact initiateCall_wf r body providerOk newCallId ih
  | webhook r fetch sendOk maxRetries retryDelay body _ ih =>
      exact webhookHandler_wf fetch sendOk maxRetries retryDelay r body ih

theorem processWebhookEvent_no_missing_email (fetch : Nat → FetchResult) (sendOk : Bool)
    (maxRetries retryDelay : Nat) (registry : Registry)
    (ev : String) (c : CallPayload) (cid : String)
    (h : wellFormedRegistry registry) :
    (processWebhookEvent fetch sendOk maxRetries retryDelay registry ev c cid).foundWithoutEmail
      = false := by
  unfold processWebhookEvent
  by_cases hev : ev = "call_ended"
  · rw [if_pos hev]
    by_cases hcnd : c.call_status = some "ended" ∧ truthyNat c.end_timestamp = true
    · rw [if_pos hcnd]
      cases hreg : regGet registry cid with
      | none => rfl
      | some u =>
          have hu : u.email ≠ "" := h (cid, u) (regGet_mem registry cid u hreg)
          simp [hu]
    · rw [if_neg hcnd]
      by_cases hf : (regGet registry cid).isSome = true
      · rw [if_pos hf]
      · rw [if_neg hf]
  · rw [if_neg hev]

theorem webhookHandler_no_missing_email (fetch : Nat → FetchResult) (sendOk : Bool)
    (maxRetries retryDelay : Nat) (registry : Registry) (body : WebhookBody)
    (h : wellFormedRegistry registry) :
    (webhookHandler fetch sendOk maxRetries retryDelay registry body).foundWithoutEmail
      = false := by
  rcases body with ⟨oev, oc⟩
  cases oev with
  | none => cases oc <;> rfl
  | some ev =>
      cases oc with
      | none => rfl
      | some c =>
          obtain ⟨ocid, ost, ots⟩ := c
          cases ocid with
          | none => rfl
          | some cid =>
              show ((if ev = "" ∨ cid = "" then invalidResult registry
                else processWebhookEvent fetch sendOk maxRetries retryDelay registry
                  ev ⟨some cid, ost, ots⟩ cid)).foundWithoutEmail = false
              split
              · rfl
              · exact processWebhookEvent_no_missing_email fetch sendOk maxRetries
                  retryDelay registry ev ⟨some cid, ost, ots⟩ cid h

/-- C10: in every reachable registry state, every stored record has a truthy
email — the initiation handler rejects bodies without one and insertion is
the only way in — so a record found on the successful `call_ended` path
always passes the `userInfo && userInfo.email` guard: the found-but-no-email
branch is unreachable for registry-resident records. -/
theorem registry_records_have_email (r : Registry) (hr : Reachable r) :
    (∀ cid u, regGet r cid = some u → u.email ≠ "") ∧
    (∀ (fetch : Nat → FetchResult) (sendOk : Bool) (maxRetries retryDelay : Nat)
        (body : WebhookBody),
      (webhookHandler fetch sendOk maxRetries retryDelay r body).foundWithoutEmail = false) := by
  have hwf := reachable_wellFormed r hr
  exact ⟨fun cid u h => hwf (cid, u) (regGet_mem r cid u h),
    fun fetch sendOk maxRetries retryDelay body =>
      webhookHandler_no_missing_email fetch sendOk maxRetries retryDelay r body hwf⟩

/-- Witness for C10: a registry reached by one successful initiation never
takes the found-but-no-email branch on a completed-call webhook. -/
theorem registry_records_have_email_witness :
    (webhookHandler (fun _ => FetchResult.returns (some "hi")) true 5 15000
        (initiateCall [] ⟨"9998887776", "Ann", "ann@x.com"⟩ true "call-1").registry
        ⟨some "call_ended", some ⟨some "call-1", some "ended", some 5⟩⟩).foundWithoutEmail
      = false :=
  (registry_records_have_email
      (initiateCall [] ⟨"9998887776", "Ann", "ann@x.com"⟩ true "call-1").registry
      (Reachable.init [] ⟨"9998887776", "Ann", "ann@x.com"⟩ true "call-1"
        Reachable.empty)).2
    (fun _ => FetchResult.returns (some "hi")) true 5 15000
    ⟨some "call_ended", some ⟨some "call-1", some "ended", some 5⟩⟩
